import Mathlib

/-!
Shallow embedding of `app.py` (ananta_backend): startup backend selection,
the rule-based local responder, the Gemini response normalizer, and the
`POST /get_response` handler, together with theorems settling the spec
claims about them.
-/

set_option maxRecDepth 4000

namespace Ananta

/-- The three reply strategies of the app: `"simple"` (local rules),
`"openai"` (ProviderA), `"gemini"` (ProviderB), as an enumerated kind. -/
inductive BackendKind where
  | simple
  | openai
  | gemini
  deriving DecidableEq, Repr

/-- Python `str.lower()` (restricted to ASCII case mapping): lower-case
every character. -/
def strLower (s : String) : String :=
  ⟨s.data.map Char.toLower⟩

/-- Python whitespace as used by `str.strip()` with no argument. -/
def isPyWhitespace (c : Char) : Bool :=
  c = ' ' || c = '\t' || c = '\n' || c = '\x0d' || c = '\x0b' || c = '\x0c'

/-- Python `str.strip()`: remove leading and trailing whitespace. -/
def pyStrip (s : String) : String :=
  ⟨((s.data.dropWhile isPyWhitespace).reverse.dropWhile isPyWhitespace).reverse⟩

/-- Python truthiness of an optional environment string (`os.getenv` result):
`None` and `""` are falsy, any other string is truthy. -/
def credTruthy : Option String → Bool
  | none => false
  | some s => !s.data.isEmpty

/-- Embedding of the module-level selection code of `app.py` lines 33-68.
`BACKEND` starts as the lower-cased requested backend; the `openai` block
downgrades it to `"simple"` when the `openai` import failed or
`OPENAI_API_KEY` is falsy; the `gemini` block (which sees the possibly
already downgraded value) does the same for `google-genai` and
`GEMINI_API_KEY`. The result is the final value of the `BACKEND` string. -/
def selectBackend (requested : String) (openaiAvailable : Bool)
    (openaiKey : Option String) (geminiAvailable : Bool)
    (geminiKey : Option String) : String :=
  let b1 := strLower requested
  let b2 :=
    if b1 = "openai" then
      if !openaiAvailable then "simple"
      else if !credTruthy openaiKey then "simple"
      else b1
    else b1
  if b2 = "gemini" then
    if !geminiAvailable then "simple"
    else if !credTruthy geminiKey then "simple"
    else b2
  else b2

/-- The backend kind a given `BACKEND` string dispatches to in
`get_response` (lines 173-178): `"openai"`, `"gemini"`, anything else is
handled by the local responder. -/
def backendKindOf (b : String) : BackendKind :=
  if b = "openai" then .openai
  else if b = "gemini" then .gemini
  else .simple

/-- The resolved backend kind of a process started with the given
requested backend, library availabilities and credentials: the dispatch
kind of the final `BACKEND` string. -/
def resolve (requested : String) (openaiAvailable : Bool)
    (openaiKey : Option String) (geminiAvailable : Bool)
    (geminiKey : Option String) : BackendKind :=
  backendKindOf
    (selectBackend requested openaiAvailable openaiKey geminiAvailable geminiKey)

theorem resolve_characterization (r : String) (oA : Bool) (oK : Option String)
    (gA : Bool) (gK : Option String) :
    resolve r oA oK gA gK =
      if strLower r = "openai" then
        (if oA && credTruthy oK then .openai else .simple)
      else if strLower r = "gemini" then
        (if gA && credTruthy gK then .gemini else .simple)
      else .simple := by
  by_cases h1 : strLower r = "openai"
  · cases oA with
    | false => simp [resolve, selectBackend, backendKindOf, h1]
    | true =>
      cases hk : credTruthy oK with
      | false => simp [resolve, selectBackend, backendKindOf, h1, hk]
      | true => simp [resolve, selectBackend, backendKindOf, h1, hk]
  · by_cases h2 : strLower r = "gemini"
    · cases gA with
      | false => simp [resolve, selectBackend, backendKindOf, h1, h2]
      | true =>
        cases hk : credTruthy gK with
        | false => simp [resolve, selectBackend, backendKindOf, h1, h2, hk]
        | true => simp [resolve, selectBackend, backendKindOf, h1, h2, hk]
    · simp [resolve, selectBackend, backendKindOf, h1, h2]

/-- Python substring test `pat in s` on character lists: some (possibly
empty) suffix of `s` starts with `pat`. -/
def containsSub (pat : List Char) : List Char → Bool
  | [] => pat.isEmpty
  | c :: cs => pat.isPrefixOf (c :: cs) || containsSub pat cs

/-- Python substring test `pat in s` for strings. -/
def strIn (pat s : String) : Bool :=
  containsSub pat.data s.data

/-- Embedding of `get_bot_reply_simple` (lines 92-103): the rule-based
fallback bot, keyword rules checked in order on the lower-cased message. -/
def get_bot_reply_simple (user_message : String) : String :=
  let text := strLower user_message
  if strIn "hello" text || strIn "hi" text then
    "Hi there! How can I help you today?"
  else if strIn "course" text || strIn "courses" text then
    "You can find your courses under the Courses section on the dashboard."
  else if strIn "assignment" text then
    "Which subject is the assignment for? I can help with tips and resources."
  else if strIn "help" text then
    "Tell me what you need help with — study plan, assignments, or resources?"
  else
    "I\x27m still learning — can you rephrase that or ask about courses, assignments or login?"

/-- A parsed JSON value, as produced by `request.get_json(force=True)`. -/
inductive JValue where
  | jnull
  | jbool (b : Bool)
  | jnum (n : Int)
  | jstr (s : String)
  | jarr (xs : List JValue)
  | jobj (fields : List (String × JValue))

/-- Python truthiness of a JSON value: `None`, `False`, `0`, `""`, `[]`
and `{}` are falsy. -/
def pyTruthy : JValue → Bool
  | .jnull => false
  | .jbool b => b
  | .jnum n => n != 0
  | .jstr s => !s.data.isEmpty
  | .jarr xs => !xs.isEmpty
  | .jobj fs => !fs.isEmpty

/-- A Gemini `generate_content` response object as `get_bot_reply_gemini`
probes it: `text` is `some s` when the object has a `text` attribute with
string value `s` and `none` when `hasattr` is false (an attribute holding
`None` behaves like `some ""` for the truthiness check); `output` is
`getattr(response, "output", None)` as a JSON-like value (`none` when the
attribute is absent); `str_repr` is `str(response)`. -/
structure GeminiResponse where
  text : Option String
  output : Option JValue
  str_repr : String

/-- Python `dict.get`: the value of the first matching key, if any. -/
def jlookup (fields : List (String × JValue)) (k : String) : Option JValue :=
  match fields with
  | [] => none
  | (k', v) :: rest => if k' = k then some v else jlookup rest k

/-- The Python expression `data.get("message") or ""` (line 168): a missing
key or a falsy value gives `""`, a truthy value is kept as is. -/
def messageOrEmpty (fields : List (String × JValue)) : JValue :=
  match jlookup fields "message" with
  | none => .jstr ""
  | some v => if pyTruthy v then v else .jstr ""

/-- Outcome of `.strip()` on a JSON value: succeeds on a string (Python
`str.strip`, stripping surrounding whitespace), raises `AttributeError`
on anything else. -/
inductive StripResult where
  | ok (s : String)
  | attrError
  deriving DecidableEq, Repr

/-- `.strip()` applied to the value of the `message` field (line 168). -/
def stripValue : JValue → StripResult
  | .jstr s => .ok (pyStrip s)
  | _ => .attrError

/-- The `output`-structure fallback of `get_bot_reply_gemini`
(lines 145-155): if `output` is a truthy list whose first element is a
dict, whose `content` entry is a non-empty list, whose first item is a
dict carrying a `text` key, return that text; in every other case fall
through to `str(response)`. -/
def geminiFromOutput (output : Option JValue) (raw : String) : JValue :=
  match output with
  | some (.jarr (first :: _)) =>
    match first with
    | .jobj fields =>
      match jlookup fields "content" with
      | some (.jarr (item :: _)) =>
        match item with
        | .jobj itemFields =>
          match jlookup itemFields "text" with
          | some t => t
          | none => .jstr raw
        | _ => .jstr raw
      | _ => .jstr raw
    | _ => .jstr raw
  | _ => .jstr raw

/-- The response normalization of `get_bot_reply_gemini` (lines 141-155):
`response.text` first when present and truthy, then the `output`
structure, then `str(response)`. -/
def normalizeGemini (r : GeminiResponse) : JValue :=
  match r.text with
  | some s => if s.data.isEmpty then geminiFromOutput r.output r.str_repr else .jstr s
  | none => geminiFromOutput r.output r.str_repr

/-- Outcome of a provider call (`get_bot_reply_openai` /
`get_bot_reply_gemini`): either a reply string, or a raised exception
carrying its textual description `str(e)`. -/
inductive ReplyOutcome where
  | success (reply : String)
  | failure (err : String)
  deriving DecidableEq, Repr

/-- What the `get_response` route produces: an HTTP response with a status
code and a JSON object body, or an exception escaping the handler
(unhandled beyond the request boundary). -/
inductive HttpResult where
  | response (status : Nat) (body : List (String × JValue))
  | unhandled

/-- Embedding of the `get_response` handler (lines 161-184). `body` is the
result of `request.get_json(force=True)` (`none` when parsing raised);
`openaiCall` and `geminiCall` are the provider adapters, which may raise.
The first `try` turns a parse failure into 400 `Invalid JSON body`; the
`.strip()` of the `message` value happens outside any `try`, so a
non-string truthy `message` (and a non-dict body, whose `.get` raises)
escapes unhandled; an empty stripped message gives 400
`No message provided`; the second `try` dispatches on `BACKEND` and turns
a provider exception `e` into 500 with `str(e)`. -/
def get_response (BACKEND : String) (body : Option JValue)
    (openaiCall geminiCall : String → ReplyOutcome) : HttpResult :=
  match body with
  | none => .response 400 [("error", .jstr "Invalid JSON body")]
  | some data =>
    match data with
    | .jobj fields =>
      match stripValue (messageOrEmpty fields) with
      | .attrError => .unhandled
      | .ok user_message =>
        if user_message.data.isEmpty then
          .response 400 [("error", .jstr "No message provided")]
        else
          let outcome :=
            if BACKEND = "openai" then openaiCall user_message
            else if BACKEND = "gemini" then geminiCall user_message
            else .success (get_bot_reply_simple user_message)
          match outcome with
          | .success reply => .response 200 [("reply", .jstr reply)]
          | .failure e => .response 500 [("error", .jstr e)]
    | _ => .unhandled

/-- The process-wide state read by the handler: the module-level `BACKEND`
string resolved at startup. -/
structure AppState where
  BACKEND : String
  deriving DecidableEq, Repr

/-- One request handled against the process state: `get_response` reads
`BACKEND` and never assigns it (no `global BACKEND` in the handler), so
the state after the request is the state before it. -/
def handleRequest (st : AppState) (body : Option JValue)
    (openaiCall geminiCall : String → ReplyOutcome) :
    HttpResult × AppState :=
  (get_response st.BACKEND body openaiCall geminiCall, st)

/-- Observer on handler results: the HTTP status of a structured response,
`none` when the handler raised instead of responding. -/
def statusOf : HttpResult → Option Nat
  | .response st _ => some st
  | .unhandled => none

theorem data_isEmpty_false {s : String} (h : s ≠ "") : s.data.isEmpty = false := by
  cases s with
  | mk data =>
    cases data with
    | nil => exact absurd rfl h
    | cons c cs => rfl

theorem selectBackend_unrecognized (r : String)
    (h2 : strLower r ≠ "openai") (h3 : strLower r ≠ "gemini")
    (oA gA : Bool) (oK gK : Option String) :
    selectBackend r oA oK gA gK = strLower r := by
  simp [selectBackend, h2, h3]

theorem get_response_simple_dispatch (b : String) (hbo : b ≠ "openai")
    (hbg : b ≠ "gemini") (m : String) (hm : pyStrip m ≠ "")
    (oc gc : String → ReplyOutcome) :
    get_response b (some (.jobj [("message", .jstr m)])) oc gc =
      .response 200 [("reply", .jstr (get_bot_reply_simple (pyStrip m)))] := by
  have hm0 : m ≠ "" := by
    intro h
    rw [h] at hm
    exact hm rfl
  simp [get_response, messageOrEmpty, jlookup, pyTruthy, stripValue,
    data_isEmpty_false hm0, data_isEmpty_false hm, hbo, hbg]

theorem geminiFromOutput_cases (out : Option JValue) (raw : String) :
    geminiFromOutput out raw = .jstr raw ∨
    ∃ flds rest itemFlds rest2 v,
      out = some (.jarr (.jobj flds :: rest)) ∧
      jlookup flds "content" = some (.jarr (.jobj itemFlds :: rest2)) ∧
      jlookup itemFlds "text" = some v ∧
      geminiFromOutput out raw = v := by
  rcases out with _ | v
  · left; rfl
  · rcases v with _ | b | n | s | xs | fs
    · left; rfl
    · left; rfl
    · left; rfl
    · left; rfl
    · rcases xs with _ | ⟨first, rest⟩
      · left; rfl
      · rcases first with _ | b | n | s | ys | flds
        · left; rfl
        · left; rfl
        · left; rfl
        · left; rfl
        · left; rfl
        · rcases hc : jlookup flds "content" with _ | cv
          · left; simp [geminiFromOutput, hc]
          · rcases cv with _ | b | n | s | zs | gs
            · left; simp [geminiFromOutput, hc]
            · left; simp [geminiFromOutput, hc]
            · left; simp [geminiFromOutput, hc]
            · left; simp [geminiFromOutput, hc]
            · rcases zs with _ | ⟨item, rest2⟩
              · left; simp [geminiFromOutput, hc]
              · rcases item with _ | b | n | s | ws | itemFlds
                · left; simp [geminiFromOutput, hc]
                · left; simp [geminiFromOutput, hc]
                · left; simp [geminiFromOutput, hc]
                · left; simp [geminiFromOutput, hc]
                · left; simp [geminiFromOutput, hc]
                · rcases ht : jlookup itemFlds "text" with _ | v
                  · left; simp [geminiFromOutput, hc, ht]
                  · right
                    exact ⟨flds, rest, itemFlds, rest2, v, rfl, hc, ht,
                      by simp [geminiFromOutput, hc, ht]⟩
            · left; simp [geminiFromOutput, hc]
    · left; rfl

/-- C1: the backend-selection truth table. Requesting `openai` with the
library not loadable resolves Local regardless of the credential; loadable
with an empty or absent credential resolves Local; loadable with a
non-empty credential resolves ProviderA; and the three symmetric cases
hold for `gemini`. -/
theorem resolve_truth_table (oK gK : Option String) (a : Bool) :
    (resolve "openai" false oK a gK = .simple) ∧
    (credTruthy oK = false → resolve "openai" true oK a gK = .simple) ∧
    (credTruthy oK = true → resolve "openai" true oK a gK = .openai) ∧
    (resolve "gemini" a oK false gK = .simple) ∧
    (credTruthy gK = false → resolve "gemini" a oK true gK = .simple) ∧
    (credTruthy gK = true → resolve "gemini" a oK true gK = .gemini) := by
  have e1 : strLower "openai" = "openai" := rfl
  have e2 : strLower "gemini" = "gemini" := rfl
  refine ⟨rfl, fun hk => ?_, fun hk => ?_, rfl, fun hk => ?_, fun hk => ?_⟩ <;>
    simp [resolve_characterization, e1, e2, hk]

theorem resolve_truth_table_witness :
    credTruthy (some "sk-test") = true ∧
    resolve "openai" true (some "sk-test") true none = .openai :=
  ⟨rfl, (resolve_truth_table (some "sk-test") none true).2.2.1 rfl⟩

/-- C2: the resolved backend is ProviderA (resp. ProviderB) only if the
corresponding library import succeeded and the corresponding credential
was truthy at startup; when neither provider has both prerequisites the
resolution is Local; and handling a request leaves the process state
(the resolved `BACKEND`) unchanged. -/
theorem backend_invariant (r : String) (oA gA : Bool) (oK gK : Option String)
    (body : Option JValue) (oc gc : String → ReplyOutcome) :
    (resolve r oA oK gA gK = .openai → oA = true ∧ credTruthy oK = true) ∧
    (resolve r oA oK gA gK = .gemini → gA = true ∧ credTruthy gK = true) ∧
    (¬(oA = true ∧ credTruthy oK = true) → ¬(gA = true ∧ credTruthy gK = true) →
      resolve r oA oK gA gK = .simple) ∧
    (handleRequest ⟨selectBackend r oA oK gA gK⟩ body oc gc).2 =
      ⟨selectBackend r oA oK gA gK⟩ := by
  refine ⟨?_, ?_, ?_, rfl⟩ <;> rw [resolve_characterization] <;>
    split_ifs <;> simp_all

theorem backend_invariant_witness :
    true = true ∧ credTruthy (some "key") = true :=
  (backend_invariant "openai" true true (some "key") none none
    (fun _ => .success "") (fun _ => .success "")).1 rfl

/-- C3: every requested-backend string whose lower-casing is outside
`{"simple", "openai", "gemini"}` resolves to Local, and dispatching a
valid request under such a configuration uses the local rule-based
responder. -/
theorem unrecognized_resolves_local (r : String)
    (_h1 : strLower r ≠ "simple") (h2 : strLower r ≠ "openai")
    (h3 : strLower r ≠ "gemini") (oA gA : Bool) (oK gK : Option String)
    (m : String) (hm : pyStrip m ≠ "") (oc gc : String → ReplyOutcome) :
    resolve r oA oK gA gK = .simple ∧
    get_response (selectBackend r oA oK gA gK)
        (some (.jobj [("message", .jstr m)])) oc gc =
      .response 200 [("reply", .jstr (get_bot_reply_simple (pyStrip m)))] := by
  constructor
  · rw [resolve_characterization]
    simp [h2, h3]
  · rw [selectBackend_unrecognized r h2 h3]
    exact get_response_simple_dispatch _ h2 h3 m hm oc gc

theorem unrecognized_resolves_local_witness :
    resolve "Foobar" true (some "k") true (some "k") = .simple ∧
    get_response (selectBackend "Foobar" true (some "k") true (some "k"))
        (some (.jobj [("message", .jstr " hi ")]))
        (fun _ => .failure "x") (fun _ => .failure "y") =
      .response 200 [("reply", .jstr (get_bot_reply_simple (pyStrip " hi ")))] :=
  unrecognized_resolves_local "Foobar" (by decide) (by decide) (by decide)
    true true (some "k") (some "k") " hi " (by decide)
    (fun _ => .failure "x") (fun _ => .failure "y")

/-- C4: the local responder checks its keyword rules on the lower-cased
message in the fixed order greeting, courses, assignment, help, fallback,
and the first matching rule wins: the message
`"hello, I need help with an assignment"` gets the greeting reply, and a
message matching no keyword gets the fallback reply mentioning courses,
assignments and login. -/
theorem simple_rule_order (m : String) :
    (get_bot_reply_simple "hello, I need help with an assignment" =
      "Hi there! How can I help you today?") ∧
    ((strIn "hello" (strLower m) || strIn "hi" (strLower m)) = true →
      get_bot_reply_simple m = "Hi there! How can I help you today?") ∧
    ((strIn "hello" (strLower m) || strIn "hi" (strLower m)) = false →
      (strIn "course" (strLower m) || strIn "courses" (strLower m)) = true →
      get_bot_reply_simple m =
        "You can find your courses under the Courses section on the dashboard.") ∧
    ((strIn "hello" (strLower m) || strIn "hi" (strLower m)) = false →
      (strIn "course" (strLower m) || strIn "courses" (strLower m)) = false →
      strIn "assignment" (strLower m) = true →
      get_bot_reply_simple m =
        "Which subject is the assignment for? I can help with tips and resources.") ∧
    ((strIn "hello" (strLower m) || strIn "hi" (strLower m)) = false →
      (strIn "course" (strLower m) || strIn "courses" (strLower m)) = false →
      strIn "assignment" (strLower m) = false →
      strIn "help" (strLower m) = true →
      get_bot_reply_simple m =
        "Tell me what you need help with — study plan, assignments, or resources?") ∧
    ((strIn "hello" (strLower m) || strIn "hi" (strLower m)) = false →
      (strIn "course" (strLower m) || strIn "courses" (strLower m)) = false →
      strIn "assignment" (strLower m) = false →
      strIn "help" (strLower m) = false →
      get_bot_reply_simple m =
        "I\x27m still learning — can you rephrase that or ask about courses, assignments or login?") := by
  refine ⟨rfl, fun h1 => ?_, fun h1 h2 => ?_, fun h1 h2 h3 => ?_,
    fun h1 h2 h3 h4 => ?_, fun h1 h2 h3 h4 => ?_⟩
  · simp [get_bot_reply_simple, h1]
  · simp [get_bot_reply_simple, h1, h2]
  · simp [get_bot_reply_simple, h1, h2, h3]
  · simp [get_bot_reply_simple, h1, h2, h3, h4]
  · simp [get_bot_reply_simple, h1, h2, h3, h4]

theorem simple_rule_order_witness :
    get_bot_reply_simple "xyz123" =
      "I\x27m still learning — can you rephrase that or ask about courses, assignments or login?" :=
  (simple_rule_order "xyz123").2.2.2.2.2 rfl rfl rfl rfl

/-- C5: the handler returns 400 with an error field exactly on input
validation failure: an unparsable body gives 400 `Invalid JSON body`; a
parsed object whose `message` is missing, null, or empty after trimming
gives 400 `No message provided` (independently of the provider call
functions, which are never invoked); and a message that is non-empty
after trimming never yields a 400, only a 200 reply or a 500 error. -/
theorem validation_rejects (b : String) (fields : List (String × JValue))
    (s : String) (oc gc : String → ReplyOutcome) :
    (get_response b none oc gc =
        .response 400 [("error", .jstr "Invalid JSON body")]) ∧
    (jlookup fields "message" = none →
      get_response b (some (.jobj fields)) oc gc =
        .response 400 [("error", .jstr "No message provided")]) ∧
    (jlookup fields "message" = some .jnull →
      get_response b (some (.jobj fields)) oc gc =
        .response 400 [("error", .jstr "No message provided")]) ∧
    (jlookup fields "message" = some (.jstr s) → pyStrip s = "" →
      get_response b (some (.jobj fields)) oc gc =
        .response 400 [("error", .jstr "No message provided")]) ∧
    (jlookup fields "message" = some (.jstr s) → pyStrip s ≠ "" →
      (∃ rep, get_response b (some (.jobj fields)) oc gc =
          .response 200 [("reply", .jstr rep)]) ∨
      (∃ err, get_response b (some (.jobj fields)) oc gc =
          .response 500 [("error", .jstr err)])) := by
  refine ⟨rfl, fun h => ?_, fun h => ?_, fun h hs => ?_, fun h hs => ?_⟩
  · simp [get_response, messageOrEmpty, h, stripValue,
      show pyStrip "" = "" from rfl]
  · simp [get_response, messageOrEmpty, h, pyTruthy, stripValue,
      show pyStrip "" = "" from rfl]
  · by_cases hse : s = ""
    · subst hse
      simp [get_response, messageOrEmpty, h, pyTruthy, stripValue,
        show pyStrip "" = "" from rfl]
    · simp [get_response, messageOrEmpty, h, pyTruthy, stripValue,
        data_isEmpty_false hse, hs]
  · have hse : s ≠ "" := by
      intro h'
      rw [h'] at hs
      exact hs rfl
    rcases hout : (if b = "openai" then oc (pyStrip s)
        else if b = "gemini" then gc (pyStrip s)
        else ReplyOutcome.success (get_bot_reply_simple (pyStrip s))) with r | e
    · left
      exact ⟨r, by simp [get_response, messageOrEmpty, h, pyTruthy, stripValue,
        data_isEmpty_false hse, data_isEmpty_false hs, hout]⟩
    · right
      exact ⟨e, by simp [get_response, messageOrEmpty, h, pyTruthy, stripValue,
        data_isEmpty_false hse, data_isEmpty_false hs, hout]⟩

theorem validation_rejects_witness :
    (get_response "simple" (some (.jobj []))
        (fun _ => ReplyOutcome.failure "x") (fun _ => ReplyOutcome.failure "x") =
      .response 400 [("error", .jstr "No message provided")]) ∧
    (get_response "simple" (some (.jobj [("message", .jstr "  ")]))
        (fun _ => ReplyOutcome.failure "x") (fun _ => ReplyOutcome.failure "x") =
      .response 400 [("error", .jstr "No message provided")]) :=
  ⟨(validation_rejects "simple" [] "  "
      (fun _ => ReplyOutcome.failure "x") (fun _ => ReplyOutcome.failure "x")).2.1 rfl,
   (validation_rejects "simple" [("message", .jstr "  ")] "  "
      (fun _ => ReplyOutcome.failure "x") (fun _ => ReplyOutcome.failure "x")).2.2.2.1 rfl rfl⟩

/-- C6: under a `BACKEND` that dispatches to the local responder, POSTing
`{"message": "hi"}` yields HTTP 200 with body
`{"reply": "Hi there! How can I help you today?"}`. -/
theorem hi_local_200 (b : String) (hb : backendKindOf b = .simple)
    (oc gc : String → ReplyOutcome) :
    get_response b (some (.jobj [("message", .jstr "hi")])) oc gc =
      .response 200 [("reply", .jstr "Hi there! How can I help you today?")] := by
  have hbo : b ≠ "openai" := by
    intro h
    rw [h] at hb
    simp [backendKindOf] at hb
  have hbg : b ≠ "gemini" := by
    intro h
    rw [h] at hb
    simp [backendKindOf] at hb
  exact get_response_simple_dispatch b hbo hbg "hi" (by decide) oc gc

theorem hi_local_200_witness :
    get_response "simple" (some (.jobj [("message", .jstr "hi")]))
        (fun _ => ReplyOutcome.failure "x") (fun _ => ReplyOutcome.failure "y") =
      .response 200 [("reply", .jstr "Hi there! How can I help you today?")] :=
  hi_local_200 "simple" rfl
    (fun _ => ReplyOutcome.failure "x") (fun _ => ReplyOutcome.failure "y")

/-- C7: the Gemini response normalizer applies its steps in order and
always yields a value: a non-empty direct `text` attribute wins; with the
direct text absent or empty, a response carrying the nested
output/content/text structure yields the nested text; and for every
output shape, either the nested structure is present and its text is
returned, or the normalizer falls back to the raw string conversion of
the response, which is non-empty whenever that conversion is. -/
theorem gemini_normalization (raw t : String) (out : Option JValue)
    (fields itemFields : List (String × JValue)) (restOut restC : List JValue)
    (hraw : raw ≠ "")
    (hc : jlookup fields "content" = some (.jarr (.jobj itemFields :: restC)))
    (ht : jlookup itemFields "text" = some (.jstr t)) :
    (normalizeGemini ⟨none, some (.jarr (.jobj fields :: restOut)), raw⟩ =
      .jstr t) ∧
    (normalizeGemini ⟨some "", some (.jarr (.jobj fields :: restOut)), raw⟩ =
      .jstr t) ∧
    (∀ s, s ≠ "" → normalizeGemini ⟨some s, out, raw⟩ = .jstr s) ∧
    (geminiFromOutput out raw = .jstr raw ∨
      ∃ flds rest itemFlds rest2 v,
        out = some (.jarr (.jobj flds :: rest)) ∧
        jlookup flds "content" = some (.jarr (.jobj itemFlds :: rest2)) ∧
        jlookup itemFlds "text" = some v ∧
        geminiFromOutput out raw = v) ∧
    (∃ s, normalizeGemini ⟨none, none, raw⟩ = .jstr s ∧ s ≠ "") := by
  refine ⟨?_, ?_, fun s hs => ?_, geminiFromOutput_cases out raw,
    ⟨raw, rfl, hraw⟩⟩
  · simp [normalizeGemini, geminiFromOutput, hc, ht]
  · simp [normalizeGemini, geminiFromOutput, hc, ht]
  · simp [normalizeGemini, data_isEmpty_false hs]

theorem gemini_normalization_witness :
    normalizeGemini
        ⟨none,
         some (.jarr [.jobj [("content", .jarr [.jobj [("text", .jstr "nested")]])]]),
         "RAW"⟩ = .jstr "nested" :=
  (gemini_normalization "RAW" "nested" none
    [("content", .jarr [.jobj [("text", .jstr "nested")]])]
    [("text", .jstr "nested")] [] [] (by decide) rfl rfl).1

/-- C8: a provider-call exception during dispatch yields HTTP 500 with
the exception text as the error field, for both provider backends; the
result is a structured 500 response, so the exception neither escapes the
request boundary nor downgrades to a local 200 reply mid-request. -/
theorem provider_exception_500 (m e : String) (hm : pyStrip m ≠ "")
    (oc gc : String → ReplyOutcome)
    (ho : oc (pyStrip m) = .failure e) (hg : gc (pyStrip m) = .failure e) :
    (get_response "openai" (some (.jobj [("message", .jstr m)])) oc gc =
      .response 500 [("error", .jstr e)]) ∧
    (get_response "gemini" (some (.jobj [("message", .jstr m)])) oc gc =
      .response 500 [("error", .jstr e)]) ∧
    (statusOf (get_response "openai" (some (.jobj [("message", .jstr m)])) oc gc)
      = some 500) ∧
    (statusOf (get_response "gemini" (some (.jobj [("message", .jstr m)])) oc gc)
      = some 500) := by
  have hm0 : m ≠ "" := by
    intro h
    rw [h] at hm
    exact hm rfl
  have c1 : get_response "openai" (some (.jobj [("message", .jstr m)])) oc gc =
      .response 500 [("error", .jstr e)] := by
    simp [get_response, messageOrEmpty, jlookup, pyTruthy, stripValue,
      data_isEmpty_false hm0, data_isEmpty_false hm, ho]
  have c2 : get_response "gemini" (some (.jobj [("message", .jstr m)])) oc gc =
      .response 500 [("error", .jstr e)] := by
    simp [get_response, messageOrEmpty, jlookup, pyTruthy, stripValue,
      data_isEmpty_false hm0, data_isEmpty_false hm, hg]
  refine ⟨c1, c2, ?_, ?_⟩
  · rw [c1]
    rfl
  · rw [c2]
    rfl

theorem provider_exception_500_witness :
    get_response "openai" (some (.jobj [("message", .jstr "hi")]))
        (fun _ => ReplyOutcome.failure "boom") (fun _ => ReplyOutcome.failure "boom") =
      .response 500 [("error", .jstr "boom")] :=
  (provider_exception_500 "hi" "boom" (by decide)
    (fun _ => ReplyOutcome.failure "boom") (fun _ => ReplyOutcome.failure "boom")
    rfl rfl).1

/-- C9: the local responder is a pure deterministic function of its input
and is case-insensitive: messages equal after lower-casing get the same
reply, in particular `"HELLO"` and `"hello"` do. -/
theorem simple_pure_caseless (m m1 m2 : String)
    (h : strLower m1 = strLower m2) :
    (get_bot_reply_simple m = get_bot_reply_simple m) ∧
    (get_bot_reply_simple m1 = get_bot_reply_simple m2) ∧
    (get_bot_reply_simple "HELLO" = get_bot_reply_simple "hello") := by
  refine ⟨rfl, ?_, rfl⟩
  simp only [get_bot_reply_simple, h]

theorem simple_pure_caseless_witness :
    get_bot_reply_simple "HeLLo WoRLD" = get_bot_reply_simple "hello world" :=
  (simple_pure_caseless "x" "HeLLo WoRLD" "hello world" rfl).2.1

/-- C10: a valid-JSON body whose `message` is a truthy non-string value
(here the number 123) makes the handler raise at the `.strip()` call,
outside both `try` blocks, so the request produces no structured HTTP
response at all — neither a 400 nor a 500 JSON error. -/
theorem nonstring_message_unhandled (b : String)
    (oc gc : String → ReplyOutcome) :
    get_response b (some (.jobj [("message", .jnum 123)])) oc gc =
      .unhandled ∧
    statusOf (get_response b (some (.jobj [("message", .jnum 123)])) oc gc) =
      none :=
  ⟨rfl, rfl⟩

end Ananta
